import Mathlib

/-!
Verification of the UseSend webhook core (packages/python-sdk/usesend/webhooks.py)
as a shallow embedding. Machine integers are modelled as Nat/Int with explicit
reductions mod 2^32 where the SHA-256 compression function needs them; the
Python-level Optional and exception structure is modelled with Option/Except.
-/

namespace UseSend

/-! ## Bytes and 32-bit words -/

/-- Reduce a natural number to a 32-bit word. -/
def w32 (n : Nat) : Nat := n % 4294967296

/-- Right rotation of a 32-bit word. -/
def rotr (x n : Nat) : Nat := w32 ((x >>> n) ||| (x <<< (32 - n)))

/-- Bitwise complement within 32 bits. -/
def not32 (x : Nat) : Nat := x ^^^ 4294967295

/-! ## UTF-8 encoding and strict decoding

Models the CPython str.encode("utf-8") and bytes.decode("utf-8") used by the
webhook module: encoding maps each scalar value to 1-4 bytes; strict decoding
rejects continuation-byte errors, overlong forms, surrogates and values above
U+10FFFF, exactly the inputs on which bytes.decode raises UnicodeDecodeError. -/

/-- UTF-8 encoding of a single Unicode scalar value (given as Nat). -/
def utf8EncodeChar (c : Nat) : List Nat :=
  if c < 128 then [c]
  else if c < 2048 then [192 ||| (c >>> 6), 128 ||| (c &&& 63)]
  else if c < 65536 then
    [224 ||| (c >>> 12), 128 ||| ((c >>> 6) &&& 63), 128 ||| (c &&& 63)]
  else
    [240 ||| (c >>> 18), 128 ||| ((c >>> 12) &&& 63),
     128 ||| ((c >>> 6) &&& 63), 128 ||| (c &&& 63)]

/-- UTF-8 encoding of a string, as a list of byte values. -/
def strToUtf8 (s : String) : List Nat :=
  s.data.flatMap (fun c => utf8EncodeChar c.toNat)

/-- Strict UTF-8 decoding, mirroring bytes.decode("utf-8") with strict error
handling: returns none exactly when CPython raises UnicodeDecodeError. -/
def utf8Decode : List Nat → Option (List Char)
  | [] => some []
  | b :: rest =>
    if b < 128 then
      (utf8Decode rest).map (fun cs => Char.ofNat b :: cs)
    else if 194 ≤ b ∧ b ≤ 223 then
      match rest with
      | b1 :: rest2 =>
        if 128 ≤ b1 ∧ b1 ≤ 191 then
          (utf8Decode rest2).map (fun cs =>
            Char.ofNat ((b - 192) * 64 + (b1 - 128)) :: cs)
        else none
      | [] => none
    else if 224 ≤ b ∧ b ≤ 239 then
      match rest with
      | b1 :: b2 :: rest3 =>
        let lo1 := if b = 224 then 160 else 128
        let hi1 := if b = 237 then 159 else 191
        if (lo1 ≤ b1 ∧ b1 ≤ hi1) ∧ (128 ≤ b2 ∧ b2 ≤ 191) then
          (utf8Decode rest3).map (fun cs =>
            Char.ofNat ((b - 224) * 4096 + (b1 - 128) * 64 + (b2 - 128)) :: cs)
        else none
      | _ => none
    else if 240 ≤ b ∧ b ≤ 244 then
      match rest with
      | b1 :: b2 :: b3 :: rest4 =>
        let lo1 := if b = 240 then 144 else 128
        let hi1 := if b = 244 then 143 else 191
        if (lo1 ≤ b1 ∧ b1 ≤ hi1) ∧ (128 ≤ b2 ∧ b2 ≤ 191) ∧ (128 ≤ b3 ∧ b3 ≤ 191) then
          (utf8Decode rest4).map (fun cs =>
            Char.ofNat ((b - 240) * 262144 + (b1 - 128) * 4096 +
              (b2 - 128) * 64 + (b3 - 128)) :: cs)
        else none
      | _ => none
    else none

/-! ## Lowercase hexadecimal encoding (hexdigest) -/

/-- Lowercase hexadecimal digit for a value below 16. -/
def hexDigit (n : Nat) : Char :=
  if n < 10 then Char.ofNat (48 + n) else Char.ofNat (87 + n)

/-- Two lowercase hex digits of a byte. -/
def byteToHex (b : Nat) : List Char := [hexDigit (b / 16), hexDigit (b % 16)]

/-- Lowercase hexadecimal encoding of a byte list, as in hexdigest(). -/
def hexEncode (bs : List Nat) : String := String.mk (bs.flatMap byteToHex)

/-! ## Python int() on strings

Models CPython int(str): optional surrounding whitespace, an optional sign,
then base-10 digits in which single underscores may appear between digits. -/

/-- Whitespace characters stripped by Python int() (ASCII subset). -/
def isPySpace (c : Char) : Bool :=
  c = ' ' ∨ c = Char.ofNat 9 ∨ c = Char.ofNat 10 ∨ c = Char.ofNat 11 ∨
  c = Char.ofNat 12 ∨ c = Char.ofNat 13

/-- Value of a decimal digit character, none for non-digits. -/
def digitVal (c : Char) : Option Nat :=
  if 48 ≤ c.toNat ∧ c.toNat ≤ 57 then some (c.toNat - 48) else none

/-- Continue parsing a digit run in which an underscore must sit between two
digits, accumulating the value. -/
def pyDigitsAux : List Char → Nat → Option Nat
  | [], acc => some acc
  | ['_'], _ => none
  | '_' :: c :: rest, acc =>
    match digitVal c with
    | some d => pyDigitsAux rest (acc * 10 + d)
    | none => none
  | c :: rest, acc =>
    match digitVal c with
    | some d => pyDigitsAux rest (acc * 10 + d)
    | none => none

/-- Parse a nonempty underscore-separated digit run. -/
def pyDigits : List Char → Option Nat
  | [] => none
  | c :: rest =>
    match digitVal c with
    | some d => pyDigitsAux rest d
    | none => none

/-- CPython int(str) on base-10 input: strip whitespace, optional sign,
underscore-grouped digits; none exactly when int() raises ValueError. -/
def pyParseInt (s : String) : Option Int :=
  let cs := (s.data.dropWhile isPySpace).reverse.dropWhile isPySpace |>.reverse
  match cs with
  | '+' :: rest => (pyDigits rest).map (fun n => (n : Int))
  | '-' :: rest => (pyDigits rest).map (fun n => -(n : Int))
  | rest => (pyDigits rest).map (fun n => (n : Int))

/-! ## SHA-256 (FIPS 180-4) over byte lists

Executable model of hashlib.sha256 as used by hmac.new in the webhook module. -/

/-- The 64 SHA-256 round constants. -/
def sha256K : List Nat :=
  [1116352408, 1899447441, 3049323471, 3921009573, 961987163, 1508970993,
   2453635748, 2870763221, 3624381080, 310598401, 607225278, 1426881987,
   1925078388, 2162078206, 2614888103, 3248222580, 3835390401, 4022224774,
   264347078, 604807628, 770255983, 1249150122, 1555081692, 1996064986,
   2554220882, 2821834349, 2952996808, 3210313671, 3336571891, 3584528711,
   113926993, 338241895, 666307205, 773529912, 1294757372, 1396182291,
   1695183700, 1986661051, 2177026350, 2456956037, 2730485921, 2820302411,
   3259730800, 3345764771, 3516065817, 3600352804, 4094571909, 275423344,
   430227734, 506948616, 659060556, 883997877, 958139571, 1322822218,
   1537002063, 1747873779, 1955562222, 2024104815, 2227730452, 2361852424,
   2428436474, 2756734187, 3204031479, 3329325298]

/-- The SHA-256 initial hash state. -/
def sha256H0 : List Nat :=
  [1779033703, 3144134277, 1013904242, 2773480762,
   1359893119, 2600822924, 528734635, 1541459225]

/-- Choice function of the compression round. -/
def shaCh (x y z : Nat) : Nat := (x &&& y) ^^^ (not32 x &&& z)

/-- Majority function of the compression round. -/
def shaMaj (x y z : Nat) : Nat := (x &&& y) ^^^ (x &&& z) ^^^ (y &&& z)

/-- Upper-case sigma 0 of the compression round. -/
def bigSigma0 (x : Nat) : Nat := rotr x 2 ^^^ rotr x 13 ^^^ rotr x 22

/-- Upper-case sigma 1 of the compression round. -/
def bigSigma1 (x : Nat) : Nat := rotr x 6 ^^^ rotr x 11 ^^^ rotr x 25

/-- Lower-case sigma 0 of the message schedule. -/
def smallSigma0 (x : Nat) : Nat := rotr x 7 ^^^ rotr x 18 ^^^ (x >>> 3)

/-- Lower-case sigma 1 of the message schedule. -/
def smallSigma1 (x : Nat) : Nat := rotr x 17 ^^^ rotr x 19 ^^^ (x >>> 10)

/-- Big-endian bytes (most significant first) of a value, given a byte count. -/
def beBytes (count n : Nat) : List Nat :=
  (List.range count).map (fun i => (n >>> (8 * (count - 1 - i))) % 256)

/-- Group bytes into big-endian 32-bit words. -/
def bytesToWords : List Nat → List Nat
  | b0 :: b1 :: b2 :: b3 :: rest =>
    (b0 * 16777216 + b1 * 65536 + b2 * 256 + b3) :: bytesToWords rest
  | _ => []

/-- SHA-256 message padding: append 0x80, zeros to 56 mod 64, then the bit
length as 8 big-endian bytes. -/
def sha256Pad (msg : List Nat) : List Nat :=
  let len := msg.length
  msg ++ [128] ++ List.replicate ((120 - (len + 1) % 64) % 64) 0 ++
    beBytes 8 (len * 8)

/-- Extend 16 schedule words to 64. -/
def sha256Schedule (w0 : Array Nat) : Array Nat :=
  (List.range 48).foldl
    (fun w i =>
      w.push (w32 (smallSigma1 (w.getD (i + 14) 0) + w.getD (i + 9) 0 +
        smallSigma0 (w.getD (i + 1) 0) + w.getD i 0)))
    w0

/-- One compression round over the 8-word working state. -/
def sha256Round (st : List Nat) (kw : Nat × Nat) : List Nat :=
  match st with
  | [a, b, c, d, e, f, g, h] =>
    let t1 := w32 (h + bigSigma1 e + shaCh e f g + kw.1 + kw.2)
    let t2 := w32 (bigSigma0 a + shaMaj a b c)
    [w32 (t1 + t2), a, b, c, w32 (d + t1), e, f, g]
  | other => other

/-- Compress one 64-byte block into the hash state. -/
def sha256Compress (h : List Nat) (block : List Nat) : List Nat :=
  let w := sha256Schedule (Array.mk (bytesToWords block))
  let st := (sha256K.zip w.toList).foldl sha256Round h
  List.zipWith (fun x y => w32 (x + y)) h st

/-- Split a byte list into chunks of 64. -/
def chunks64 (l : List Nat) : List (List Nat) :=
  if h : l = [] then []
  else
    l.take 64 :: chunks64 (l.drop 64)
termination_by l.length
decreasing_by
  simp only [List.length_drop]
  cases l with
  | nil => exact absurd rfl h
  | cons a t => simp; omega

/-- SHA-256 digest (32 bytes) of a byte list. -/
def sha256 (msg : List Nat) : List Nat :=
  let finalH := (chunks64 (sha256Pad msg)).foldl sha256Compress sha256H0
  finalH.flatMap (beBytes 4)

/-! ## HMAC-SHA256 (RFC 2104), as in hmac.new(key, msg, hashlib.sha256) -/

/-- HMAC-SHA256 of a message under a key, both byte lists. -/
def hmacSha256 (key msg : List Nat) : List Nat :=
  let k0 := if 64 < key.length then sha256 key else key
  let k := k0 ++ List.replicate (64 - k0.length) 0
  let ipad := k.map (fun b => b ^^^ 54)
  let opad := k.map (fun b => b ^^^ 92)
  sha256 (opad ++ sha256 (ipad ++ msg))

/-! ## Webhook module data model

Mirrors webhooks.py: header name constants, the error taxonomy, header values
as Python passes them (a string, a list of strings, a non-string scalar such
as an int, or None), and the body as str or bytes. -/

/-- Name of the signature header. -/
def WEBHOOK_SIGNATURE_HEADER : String := "X-UseSend-Signature"

/-- Name of the timestamp header. -/
def WEBHOOK_TIMESTAMP_HEADER : String := "X-UseSend-Timestamp"

/-- The versioned signature format marker. -/
def SIGNATURE_PREFIX_V1 : String := "v1="

/-- Default tolerance: 5 minutes in milliseconds. -/
def DEFAULT_TOLERANCE_MS : Int := 5 * 60 * 1000

/-- The closed error taxonomy of WebhookVerificationError codes. -/
inductive ErrorCode where
  | MISSING_SIGNATURE
  | MISSING_TIMESTAMP
  | INVALID_SIGNATURE_FORMAT
  | INVALID_TIMESTAMP
  | TIMESTAMP_OUT_OF_RANGE
  | SIGNATURE_MISMATCH
  | INVALID_BODY
  | INVALID_JSON
deriving DecidableEq, Repr

/-- A header value as the dict-like mapping can store it: a string, a list of
strings, a non-string scalar (modelled by an integer), or None. -/
inductive HeaderValue where
  | str (s : String)
  | strList (l : List String)
  | intVal (n : Int)
  | none
deriving DecidableEq, Repr

/-- Headers: an insertion-ordered mapping of name to value. -/
abbrev Headers := List (String × HeaderValue)

/-- The raw request body: Python str or bytes. -/
inductive Body where
  | str (s : String)
  | bytes (bs : List Nat)
deriving DecidableEq, Repr

/-! ## Header lookup (_get_header) -/

/-- Conversion a matched header value undergoes in _get_header: a list yields
its first element (or None when empty); None stays None; any other value is
passed through str(). -/
def convertValue : HeaderValue → Option String
  | .str s => some s
  | .strList [] => Option.none
  | .strList (s :: _) => some s
  | .intVal n => some (toString n)
  | .none => Option.none

/-- Python str.lower restricted to its ASCII action, as the header names use:
lower-cases every character of the string. -/
def pyLower (s : String) : String := String.mk (s.data.map Char.toLower)

/-- Case-insensitive header lookup: try an exact key first, then scan the keys
for a case-insensitive match, converting the matched value. -/
def getHeader (headers : Headers) (name : String) : Option String :=
  match headers.find? (fun p => p.1 == name) with
  | some p => convertValue p.2
  | Option.none =>
    match headers.find? (fun p => pyLower p.1 == pyLower name) with
    | some p => convertValue p.2
    | Option.none => Option.none

/-! ## Body decoding (_to_string) -/

/-- Convert the body to a UTF-8 string; bytes that are not valid UTF-8 raise
INVALID_BODY. -/
def to_string : Body → Except ErrorCode String
  | .str s => .ok s
  | .bytes bs =>
    match utf8Decode bs with
    | some cs => .ok (String.mk cs)
    | Option.none => .error .INVALID_BODY

/-! ## Signature computation and comparison -/

/-- Compute the HMAC-SHA256 signature for webhook verification:
hex digest of HMAC(secret, timestamp ++ "." ++ body), under the v1= marker. -/
def compute_signature (secret timestamp body : String) : String :=
  let message := timestamp ++ "." ++ body
  let signature := hexEncode (hmacSha256 (strToUtf8 secret) (strToUtf8 message))
  SIGNATURE_PREFIX_V1 ++ signature

/-- Timing-safe comparison (hmac.compare_digest): equality of the two UTF-8
encodings. -/
def safe_compare (a b : String) : Bool := strToUtf8 a == strToUtf8 b

/-- Python str.startswith: the argument is a prefix of the character
sequence. -/
def pyStartsWith (s pre : String) : Bool := pre.data.isPrefixOf s.data

/-! ## Strict verification (_verify_internal)

The clock read int(time.time() * 1000) is passed in as the parameter now. -/

/-- Python truthiness of an Optional[str]: false for None and the empty
string. The source guards with if not signature. -/
def falsyStr : Option String → Bool
  | Option.none => true
  | some s => s.isEmpty

/-- The strict verification primitive, step for step as _verify_internal:
resolve the secret, look up both headers, check presence (Python truthiness),
check the v1= marker, parse the timestamp with int(), apply the tolerance
check, decode the body and compare signatures. -/
def verify_internal (instanceSecret : String) (body : Body) (headers : Headers)
    (secret : Option String) (tolerance : Option Int) (now : Int) :
    Except ErrorCode Unit :=
  let webhook_secret := secret.getD instanceSecret
  let signature := getHeader headers WEBHOOK_SIGNATURE_HEADER
  let timestamp := getHeader headers WEBHOOK_TIMESTAMP_HEADER
  if falsyStr signature then .error .MISSING_SIGNATURE
  else if falsyStr timestamp then .error .MISSING_TIMESTAMP
  else
    let sig := signature.getD ""
    let ts := timestamp.getD ""
    if ¬ pyStartsWith sig SIGNATURE_PREFIX_V1 then .error .INVALID_SIGNATURE_FORMAT
    else
      match pyParseInt ts with
      | Option.none => .error .INVALID_TIMESTAMP
      | some timestamp_num =>
        let tolerance_ms := tolerance.getD DEFAULT_TOLERANCE_MS
        if 0 ≤ tolerance_ms ∧ tolerance_ms < ((now - timestamp_num).natAbs : Int) then
          .error .TIMESTAMP_OUT_OF_RANGE
        else
          match to_string body with
          | .error e => .error e
          | .ok body_string =>
            let expected := compute_signature webhook_secret ts body_string
            if safe_compare expected sig then .ok ()
            else .error .SIGNATURE_MISMATCH

/-- The boolean entry point: true when strict verification returns normally,
false when it raises any WebhookVerificationError. -/
def verify (instanceSecret : String) (body : Body) (headers : Headers)
    (secret : Option String) (tolerance : Option Int) (now : Int) : Bool :=
  match verify_internal instanceSecret body headers secret tolerance now with
  | .ok _ => true
  | .error _ => false

/-! ## JSON parsing (json.loads)

A parsed JSON value. Numbers keep their raw token text: the webhook module
never inspects numeric values, only the shape of the parsed value. Objects
keep their members in source order. -/

/-- A parsed JSON value. -/
inductive JValue where
  | null
  | bool (b : Bool)
  | num (raw : String)
  | str (s : String)
  | arr (items : List JValue)
  | obj (members : List (String × JValue))

/-- JSON whitespace: space, tab, newline, carriage return. -/
def skipJsonWs (cs : List Char) : List Char :=
  cs.dropWhile (fun c => c = ' ' ∨ c = Char.ofNat 9 ∨ c = Char.ofNat 10 ∨ c = Char.ofNat 13)

/-- Value of a hexadecimal digit character, either case. -/
def hexVal (c : Char) : Option Nat :=
  if 48 ≤ c.toNat ∧ c.toNat ≤ 57 then some (c.toNat - 48)
  else if 97 ≤ c.toNat ∧ c.toNat ≤ 102 then some (c.toNat - 87)
  else if 65 ≤ c.toNat ∧ c.toNat ≤ 70 then some (c.toNat - 55)
  else Option.none

/-- Value of four hexadecimal digits. -/
def hex4 (a b c d : Char) : Option Nat :=
  match hexVal a, hexVal b, hexVal c, hexVal d with
  | some va, some vb, some vc, some vd => some (((va * 16 + vb) * 16 + vc) * 16 + vd)
  | _, _, _, _ => Option.none

/-- Single-character JSON escapes. -/
def unescapeChar : Char → Option Char
  | '"' => some '"'
  | '\\' => some '\\'
  | '/' => some '/'
  | 'b' => some (Char.ofNat 8)
  | 'f' => some (Char.ofNat 12)
  | 'n' => some (Char.ofNat 10)
  | 'r' => some (Char.ofNat 13)
  | 't' => some (Char.ofNat 9)
  | _ => Option.none

/-- Parse the contents of a JSON string after the opening quote, strict mode:
raw control characters are rejected, escapes including surrogate-paired
unicode escapes are decoded. -/
def parseStringAux (acc : List Char) : List Char → Option (String × List Char)
  | '"' :: rest => some (String.mk acc.reverse, rest)
  | '\\' :: 'u' :: a :: b :: c :: d :: rest =>
    (match hex4 a b c d with
     | some n =>
       if n < 55296 ∨ 57343 < n then parseStringAux (Char.ofNat n :: acc) rest
       else if n ≤ 56319 then
         match rest with
         | '\\' :: 'u' :: a2 :: b2 :: c2 :: d2 :: rest2 =>
           (match hex4 a2 b2 c2 d2 with
            | some m =>
              if 56320 ≤ m ∧ m ≤ 57343 then
                parseStringAux
                  (Char.ofNat (65536 + (n - 55296) * 1024 + (m - 56320)) :: acc) rest2
              else Option.none
            | Option.none => Option.none)
         | _ => Option.none
       else Option.none
     | Option.none => Option.none)
  | '\\' :: e :: rest =>
    (match unescapeChar e with
     | some ch => parseStringAux (ch :: acc) rest
     | Option.none => Option.none)
  | c :: rest =>
    if c.toNat < 32 then Option.none else parseStringAux (c :: acc) rest
  | [] => Option.none

/-- Take a run of decimal digits. -/
def takeDigitsJ : List Char → List Char × List Char
  | c :: cs =>
    if 48 ≤ c.toNat ∧ c.toNat ≤ 57 then
      let p := takeDigitsJ cs
      (c :: p.1, p.2)
    else ([], c :: cs)
  | [] => ([], [])

/-- Parse the optional fraction and exponent of a JSON number token, given the
already-parsed leading part, returning the full raw token. -/
def parseNumRest (intPart : List Char) (cs : List Char) : Option (String × List Char) :=
  let fracRes : Option (List Char × List Char) :=
    match cs with
    | '.' :: r =>
      (match takeDigitsJ r with
       | ([], _) => Option.none
       | (ds, r2) => some ('.' :: ds, r2))
    | _ => some ([], cs)
  match fracRes with
  | Option.none => Option.none
  | some (fracPart, cs2) =>
    let expRes : Option (List Char × List Char) :=
      match cs2 with
      | e :: r =>
        if e = 'e' ∨ e = 'E' then
          let p : List Char × List Char :=
            match r with
            | '+' :: rr => (['+'], rr)
            | '-' :: rr => (['-'], rr)
            | _ => ([], r)
          match takeDigitsJ p.2 with
          | ([], _) => Option.none
          | (ds, r3) => some (e :: (p.1 ++ ds), r3)
        else some ([], cs2)
      | [] => some ([], cs2)
    match expRes with
    | Option.none => Option.none
    | some (expPart, cs3) => some (String.mk (intPart ++ fracPart ++ expPart), cs3)

/-- Parse a JSON number token: optional minus, an integer part with no leading
zeros, optional fraction and exponent. -/
def parseNumberTok (cs : List Char) : Option (String × List Char) :=
  let p : List Char × List Char :=
    match cs with
    | '-' :: r => (['-'], r)
    | _ => ([], cs)
  match p.2 with
  | '0' :: r => parseNumRest (p.1 ++ ['0']) r
  | c :: r =>
    if 49 ≤ c.toNat ∧ c.toNat ≤ 57 then
      let q := takeDigitsJ r
      parseNumRest (p.1 ++ c :: q.1) q.2
    else Option.none
  | [] => Option.none

mutual

/-- Parse one JSON value, fuel-bounded; mirrors the CPython json scanner
including the NaN and Infinity constants it accepts. -/
def parseValue (fuel : Nat) (cs : List Char) : Option (JValue × List Char) :=
  match fuel with
  | 0 => Option.none
  | fuel + 1 =>
    match skipJsonWs cs with
    | 'n' :: 'u' :: 'l' :: 'l' :: rest => some (.null, rest)
    | 't' :: 'r' :: 'u' :: 'e' :: rest => some (.bool true, rest)
    | 'f' :: 'a' :: 'l' :: 's' :: 'e' :: rest => some (.bool false, rest)
    | 'N' :: 'a' :: 'N' :: rest => some (.num "NaN", rest)
    | 'I' :: 'n' :: 'f' :: 'i' :: 'n' :: 'i' :: 't' :: 'y' :: rest =>
      some (.num "Infinity", rest)
    | '-' :: 'I' :: 'n' :: 'f' :: 'i' :: 'n' :: 'i' :: 't' :: 'y' :: rest =>
      some (.num "-Infinity", rest)
    | '"' :: rest => (parseStringAux [] rest).map (fun p => (.str p.1, p.2))
    | '{' :: rest =>
      (match skipJsonWs rest with
       | '}' :: rest2 => some (.obj [], rest2)
       | rest2 => parseMembers fuel rest2 [])
    | '[' :: rest =>
      (match skipJsonWs rest with
       | ']' :: rest2 => some (.arr [], rest2)
       | rest2 => parseItems fuel rest2 [])
    | rest => (parseNumberTok rest).map (fun p => (.num p.1, p.2))
termination_by structural fuel

/-- Parse the members of a JSON object after the opening brace. -/
def parseMembers (fuel : Nat) (cs : List Char) (acc : List (String × JValue)) :
    Option (JValue × List Char) :=
  match fuel with
  | 0 => Option.none
  | fuel + 1 =>
    match skipJsonWs cs with
    | '"' :: rest =>
      (match parseStringAux [] rest with
       | Option.none => Option.none
       | some (key, r1) =>
         match skipJsonWs r1 with
         | ':' :: r2 =>
           (match parseValue fuel r2 with
            | Option.none => Option.none
            | some (v, r3) =>
              match skipJsonWs r3 with
              | ',' :: r4 => parseMembers fuel r4 (acc ++ [(key, v)])
              | '}' :: r4 => some (.obj (acc ++ [(key, v)]), r4)
              | _ => Option.none)
         | _ => Option.none)
    | _ => Option.none
termination_by structural fuel

/-- Parse the items of a JSON array after the opening bracket. -/
def parseItems (fuel : Nat) (cs : List Char) (acc : List JValue) :
    Option (JValue × List Char) :=
  match fuel with
  | 0 => Option.none
  | fuel + 1 =>
    match parseValue fuel cs with
    | Option.none => Option.none
    | some (v, r1) =>
      match skipJsonWs r1 with
      | ',' :: r2 => parseItems fuel r2 (acc ++ [v])
      | ']' :: r2 => some (.arr (acc ++ [v]), r2)
      | _ => Option.none
termination_by structural fuel

end

/-- json.loads: parse a complete JSON document; none exactly when the parser
raises, in which case construct_event maps the failure to INVALID_JSON. -/
def pyJsonLoads (s : String) : Option JValue :=
  match parseValue (s.length + 1) s.data with
  | some (v, rest) => if skipJsonWs rest = [] then some v else Option.none
  | Option.none => Option.none

/-! ## Event construction (construct_event) -/

/-- Verify and parse a webhook event: run strict verification, convert the
body, parse it as JSON; the parsed value is returned as the event. -/
def construct_event (instanceSecret : String) (body : Body) (headers : Headers)
    (secret : Option String) (tolerance : Option Int) (now : Int) :
    Except ErrorCode JValue :=
  match verify_internal instanceSecret body headers secret tolerance now with
  | .error e => .error e
  | .ok _ =>
    match to_string body with
    | .error e => .error e
    | .ok body_string =>
      match pyJsonLoads body_string with
      | some v => .ok v
      | Option.none => .error .INVALID_JSON

/-! ## Helper lemmas -/

theorem strToUtf8_append (a b : String) :
    strToUtf8 (a ++ b) = strToUtf8 a ++ strToUtf8 b := by
  simp [strToUtf8, String.data_append, List.flatMap_append]

theorem safe_compare_self (a : String) : safe_compare a a = true := by
  simp [safe_compare]

theorem isEmpty_false_of_ne {s : String} (h : s ≠ "") : s.isEmpty = false := by
  rw [Bool.eq_false_iff]
  intro hc
  exact h ((String.isEmpty_iff s).mp hc)

theorem compute_signature_isEmpty (secret ts body : String) :
    (compute_signature secret ts body).isEmpty = false := by
  apply isEmpty_false_of_ne
  intro hc
  unfold compute_signature at hc
  have h2 := congrArg String.data hc
  rw [String.data_append] at h2
  simp [SIGNATURE_PREFIX_V1] at h2

theorem compute_signature_startsWith (secret ts body : String) :
    pyStartsWith (compute_signature secret ts body) SIGNATURE_PREFIX_V1 = true := by
  unfold pyStartsWith compute_signature
  rw [String.data_append, List.isPrefixOf_iff_prefix]
  exact List.prefix_append _ _

theorem ne_empty_of_pyParseInt {s : String} {n : Int} (h : pyParseInt s = some n) :
    s ≠ "" := by
  intro hc
  subst hc
  rw [show pyParseInt "" = Option.none from rfl] at h
  exact Option.noConfusion h

theorem to_string_shape (b : Body) :
    to_string b = .error .INVALID_BODY ∨ ∃ s, to_string b = .ok s := by
  cases b with
  | str s => exact Or.inr ⟨s, rfl⟩
  | bytes bs =>
    rcases h : utf8Decode bs with _ | cs
    · exact Or.inl (by simp [to_string, h])
    · exact Or.inr ⟨String.mk cs, by simp [to_string, h]⟩

/-- Round trip through strict verification: headers carrying the computed
signature for a timestamp string and text body verify successfully whenever
the timestamp parses and the tolerance check does not fire. -/
theorem signed_verify_ok
    (instSecret bodyText ts : String) (headers : Headers)
    (secretOpt : Option String) (tolOpt : Option Int) (now n : Int)
    (hsig : getHeader headers WEBHOOK_SIGNATURE_HEADER =
      some (compute_signature (secretOpt.getD instSecret) ts bodyText))
    (hts : getHeader headers WEBHOOK_TIMESTAMP_HEADER = some ts)
    (hparse : pyParseInt ts = some n)
    (htol : ¬(0 ≤ tolOpt.getD DEFAULT_TOLERANCE_MS ∧
              tolOpt.getD DEFAULT_TOLERANCE_MS < ((now - n).natAbs : Int))) :
    verify_internal instSecret (.str bodyText) headers secretOpt tolOpt now = .ok () := by
  unfold verify_internal
  rw [hsig, hts]
  simp only [falsyStr, compute_signature_isEmpty, Bool.false_eq_true, if_false,
    isEmpty_false_of_ne (ne_empty_of_pyParseInt hparse), Option.getD_some,
    compute_signature_startsWith, not_true, if_false, hparse]
  rw [if_neg htol]
  simp [to_string, safe_compare_self]



theorem byte_lt_of_mem_beBytes {b c n : Nat} (h : b ∈ beBytes c n) : b < 256 := by
  unfold beBytes at h
  rw [List.mem_map] at h
  obtain ⟨i, _, rfl⟩ := h
  exact Nat.mod_lt _ (by norm_num)

theorem sha256_byte_lt {b : Nat} {msg : List Nat} (h : b ∈ sha256 msg) : b < 256 := by
  unfold sha256 at h
  rw [List.mem_flatMap] at h
  obtain ⟨w, _, hw⟩ := h
  exact byte_lt_of_mem_beBytes hw

theorem hmac_byte_lt {b : Nat} {key msg : List Nat} (h : b ∈ hmacSha256 key msg) :
    b < 256 := by
  unfold hmacSha256 at h
  exact sha256_byte_lt h

theorem hexDigit_mem {m : Nat} (h : m < 16) :
    hexDigit m ∈ "0123456789abcdef".data := by
  interval_cases m <;> decide

/-- Claim C1: for every secret, timestamp header string, and text body, the
expected signature recomputed by the verifier equals the string v1= followed by
the lowercase hexadecimal encoding of HMAC-SHA256 keyed by the effective secret
over the UTF-8 bytes of the timestamp header string, a literal dot separator,
and the body text, with no re-encoding or trimming; and whenever strict
verification reaches the final comparison, exactly this value is compared
against the received signature header. -/
theorem expected_signature_formula :
    (∀ secret ts body : String,
      compute_signature secret ts body =
        "v1=" ++ hexEncode (hmacSha256 (strToUtf8 secret)
          (strToUtf8 ts ++ [46] ++ strToUtf8 body)) ∧
      ∀ c ∈ (hexEncode (hmacSha256 (strToUtf8 secret)
          (strToUtf8 ts ++ [46] ++ strToUtf8 body))).data,
        c ∈ "0123456789abcdef".data) ∧
    (∀ (instSecret : String) (body : Body) (headers : Headers)
        (secretOpt : Option String) (tolOpt : Option Int) (now n : Int)
        (s t bs : String),
      getHeader headers WEBHOOK_SIGNATURE_HEADER = some s →
      pyStartsWith s SIGNATURE_PREFIX_V1 = true →
      getHeader headers WEBHOOK_TIMESTAMP_HEADER = some t →
      pyParseInt t = some n →
      ¬(0 ≤ tolOpt.getD DEFAULT_TOLERANCE_MS ∧
        tolOpt.getD DEFAULT_TOLERANCE_MS < ((now - n).natAbs : Int)) →
      to_string body = .ok bs →
      verify_internal instSecret body headers secretOpt tolOpt now =
        (if safe_compare (compute_signature (secretOpt.getD instSecret) t bs) s
         then .ok () else .error .SIGNATURE_MISMATCH)) := by
  constructor
  · intro secret ts body
    constructor
    · simp only [compute_signature]
      rw [strToUtf8_append, strToUtf8_append, show strToUtf8 "." = [46] from rfl,
        List.append_assoc]
      rfl
    · intro c hc
      unfold hexEncode at hc
      rw [show (String.mk ((hmacSha256 (strToUtf8 secret)
          (strToUtf8 ts ++ [46] ++ strToUtf8 body)).flatMap byteToHex)).data =
        (hmacSha256 (strToUtf8 secret)
          (strToUtf8 ts ++ [46] ++ strToUtf8 body)).flatMap byteToHex from rfl,
        List.mem_flatMap] at hc
      obtain ⟨b, hb, hcb⟩ := hc
      have hb256 : b < 256 := hmac_byte_lt hb
      unfold byteToHex at hcb
      simp only [List.mem_cons, List.not_mem_nil, or_false] at hcb
      rcases hcb with hcb | hcb
      · exact hcb ▸ hexDigit_mem (Nat.div_lt_of_lt_mul (by omega))
      · exact hcb ▸ hexDigit_mem (Nat.mod_lt _ (by norm_num))
  · intro inst body headers so tol now n s t bs hsig hpre hts hparse htol hbs
    have hsne : s ≠ "" := by
      intro hc
      subst hc
      rw [show pyStartsWith "" SIGNATURE_PREFIX_V1 = false from rfl] at hpre
      exact Bool.noConfusion hpre
    unfold verify_internal
    rw [hsig, hts]
    simp only [falsyStr, isEmpty_false_of_ne hsne,
      isEmpty_false_of_ne (ne_empty_of_pyParseInt hparse), Bool.false_eq_true,
      if_false, Option.getD_some, hpre, not_true, hparse, hbs]
    rw [if_neg htol]

theorem expected_signature_formula_witness :
    verify_internal "whsec_test" (.str "b")
      [(WEBHOOK_SIGNATURE_HEADER, .str "v1=aa"),
       (WEBHOOK_TIMESTAMP_HEADER, .str "1000")]
      Option.none Option.none 1000 =
      (if safe_compare (compute_signature "whsec_test" "1000" "b") "v1=aa"
       then .ok () else .error .SIGNATURE_MISMATCH) :=
  expected_signature_formula.2 "whsec_test" (.str "b")
    [(WEBHOOK_SIGNATURE_HEADER, .str "v1=aa"),
     (WEBHOOK_TIMESTAMP_HEADER, .str "1000")]
    Option.none Option.none 1000 1000 "v1=aa" "1000" "b" rfl (by decide) rfl
    (by decide) (by decide) rfl

/-- Claim C2: for every secret, timestamp string, and text body, signing the
message and then calling verify with that body, that signature header, that
timestamp header, and the same secret returns true, provided the clock reading
differs from the parsed timestamp by at most the effective tolerance. -/
theorem sign_verify_roundtrip
    (instSecret secret ts body : String) (tolOpt : Option Int) (now n : Int)
    (hparse : pyParseInt ts = some n)
    (htol : ((now - n).natAbs : Int) ≤ tolOpt.getD DEFAULT_TOLERANCE_MS) :
    verify instSecret (.str body)
      [(WEBHOOK_SIGNATURE_HEADER, .str (compute_signature secret ts body)),
       (WEBHOOK_TIMESTAMP_HEADER, .str ts)]
      (some secret) tolOpt now = true := by
  unfold verify
  rw [signed_verify_ok instSecret body ts
    [(WEBHOOK_SIGNATURE_HEADER, .str (compute_signature secret ts body)),
     (WEBHOOK_TIMESTAMP_HEADER, .str ts)]
    (some secret) tolOpt now n rfl rfl hparse (by omega)]

theorem sign_verify_roundtrip_witness :
    pyParseInt "1000" = some 1000 ∧
    verify "whsec_other" (.str "[]")
      [(WEBHOOK_SIGNATURE_HEADER, .str (compute_signature "whsec_test" "1000" "[]")),
       (WEBHOOK_TIMESTAMP_HEADER, .str "1000")]
      (some "whsec_test") Option.none 1200 = true :=
  ⟨by decide,
   sign_verify_roundtrip "whsec_other" "whsec_test" "1000" "[]" Option.none 1200 1000
     (by decide) (by decide)⟩

/-- Claim C3: once the signature and timestamp headers are present, well
formed, and the timestamp parses, strict verification fails with
TIMESTAMP_OUT_OF_RANGE exactly when the effective tolerance (override if
given, else 300000 ms) is non-negative and the absolute clock difference
strictly exceeds it; so equality at the boundary passes, one past it fails,
a negative tolerance disables the check, and tolerance zero demands an exact
clock match. -/
theorem tolerance_check_iff
    (instSecret : String) (body : Body) (headers : Headers)
    (secretOpt : Option String) (tolOpt : Option Int) (now n : Int) (s t : String)
    (hsig : getHeader headers WEBHOOK_SIGNATURE_HEADER = some s)
    (hpre : pyStartsWith s SIGNATURE_PREFIX_V1 = true)
    (hts : getHeader headers WEBHOOK_TIMESTAMP_HEADER = some t)
    (hparse : pyParseInt t = some n) :
    (verify_internal instSecret body headers secretOpt tolOpt now =
        .error .TIMESTAMP_OUT_OF_RANGE) ↔
      (0 ≤ tolOpt.getD DEFAULT_TOLERANCE_MS ∧
       tolOpt.getD DEFAULT_TOLERANCE_MS < ((now - n).natAbs : Int)) := by
  have hsne : s ≠ "" := by
    intro hc
    subst hc
    rw [show pyStartsWith "" SIGNATURE_PREFIX_V1 = false from rfl] at hpre
    exact Bool.noConfusion hpre
  unfold verify_internal
  rw [hsig, hts]
  simp only [falsyStr, isEmpty_false_of_ne hsne,
    isEmpty_false_of_ne (ne_empty_of_pyParseInt hparse), Bool.false_eq_true,
    if_false, Option.getD_some, hpre, not_true, hparse]
  by_cases hcond : 0 ≤ tolOpt.getD DEFAULT_TOLERANCE_MS ∧
      tolOpt.getD DEFAULT_TOLERANCE_MS < ((now - n).natAbs : Int)
  · rw [if_pos hcond]
    exact iff_of_true rfl hcond
  · rw [if_neg hcond]
    simp only [hcond, iff_false]
    rcases to_string_shape body with hb | ⟨bs, hb⟩
    · rw [hb]
      simp
    · rw [hb]
      by_cases hc2 : safe_compare (compute_signature (secretOpt.getD instSecret) t bs) s = true
      · simp [hc2]
      · simp [hc2]

theorem tolerance_check_iff_witness :
    ((verify_internal "whsec_test" (.str "b")
        [(WEBHOOK_SIGNATURE_HEADER, .str "v1=aa"),
         (WEBHOOK_TIMESTAMP_HEADER, .str "1000")]
        Option.none Option.none 400000 = .error .TIMESTAMP_OUT_OF_RANGE) ↔
      (0 ≤ (Option.none : Option Int).getD DEFAULT_TOLERANCE_MS ∧
       (Option.none : Option Int).getD DEFAULT_TOLERANCE_MS <
         ((((400000 : Int) - 1000).natAbs : Nat) : Int))) :=
  tolerance_check_iff "whsec_test" (.str "b")
    [(WEBHOOK_SIGNATURE_HEADER, .str "v1=aa"), (WEBHOOK_TIMESTAMP_HEADER, .str "1000")]
    Option.none Option.none 400000 1000 "v1=aa" "1000" rfl (by decide) rfl (by decide)


theorem verify_ok_to_string
    {instSecret : String} {body : Body} {headers : Headers}
    {secretOpt : Option String} {tolOpt : Option Int} {now : Int}
    (h : verify_internal instSecret body headers secretOpt tolOpt now = .ok ()) :
    ∃ bs, to_string body = .ok bs := by
  rcases to_string_shape body with hb | ⟨bs, hb⟩
  · exfalso
    unfold verify_internal at h
    simp only [hb] at h
    repeat' split at h
    all_goals simp at h
  · exact ⟨bs, hb⟩

/-- Claim C6: verify never raises; it returns true exactly when the strict
primitive returns normally and false exactly on any VerificationError, and
construct_event propagates the strict primitive error unchanged. -/
theorem verify_never_raises :
    (∀ (instSecret : String) (body : Body) (headers : Headers)
        (secretOpt : Option String) (tolOpt : Option Int) (now : Int),
      verify instSecret body headers secretOpt tolOpt now = true ↔
        verify_internal instSecret body headers secretOpt tolOpt now = .ok ()) ∧
    (∀ (instSecret : String) (body : Body) (headers : Headers)
        (secretOpt : Option String) (tolOpt : Option Int) (now : Int) (e : ErrorCode),
      verify_internal instSecret body headers secretOpt tolOpt now = .error e →
        verify instSecret body headers secretOpt tolOpt now = false ∧
        construct_event instSecret body headers secretOpt tolOpt now = .error e) := by
  constructor
  · intro inst body headers so tol now
    unfold verify
    cases h : verify_internal inst body headers so tol now with
    | ok u => cases u; simp
    | error e => simp
  · intro inst body headers so tol now e h
    exact ⟨by simp [verify, h], by simp [construct_event, h]⟩

theorem verify_never_raises_witness :
    verify "s" (.str "b") ([] : Headers) Option.none Option.none 0 = false ∧
    construct_event "s" (.str "b") ([] : Headers) Option.none Option.none 0 =
      .error .MISSING_SIGNATURE :=
  verify_never_raises.2 "s" (.str "b") ([] : Headers) Option.none Option.none 0
    .MISSING_SIGNATURE rfl

/-- Claim C8: if the strict verification primitive returns normally, the
second body decode performed by construct_event cannot fail, so construct_event
can produce INVALID_BODY only when strict verification itself produced it. -/
theorem invalid_body_unreachable_after_verify :
    (∀ (instSecret : String) (body : Body) (headers : Headers)
        (secretOpt : Option String) (tolOpt : Option Int) (now : Int),
      verify_internal instSecret body headers secretOpt tolOpt now = .ok () →
        ∃ bs, to_string body = .ok bs) ∧
    (∀ (instSecret : String) (body : Body) (headers : Headers)
        (secretOpt : Option String) (tolOpt : Option Int) (now : Int),
      construct_event instSecret body headers secretOpt tolOpt now =
          .error .INVALID_BODY →
        verify_internal instSecret body headers secretOpt tolOpt now =
          .error .INVALID_BODY) := by
  constructor
  · intro _ _ _ _ _ _ h
    exact verify_ok_to_string h
  · intro inst body headers so tol now h
    unfold construct_event at h
    cases hv : verify_internal inst body headers so tol now with
    | error e =>
      rw [hv] at h
      simp only [Except.error.injEq] at h
      rw [h]
    | ok u =>
      cases u
      obtain ⟨bs, hb⟩ := verify_ok_to_string hv
      rw [hv, hb] at h
      cases hj : pyJsonLoads bs <;> simp [hj] at h

theorem invalid_body_unreachable_after_verify_witness :
    (∃ bs, to_string (.str "[]") = .ok bs) ∧
    verify_internal "s" (.bytes [255])
      [(WEBHOOK_SIGNATURE_HEADER, .str "v1=aa"), (WEBHOOK_TIMESTAMP_HEADER, .str "1000")]
      Option.none Option.none 1000 = .error .INVALID_BODY :=
  ⟨invalid_body_unreachable_after_verify.1 "s" (.str "[]")
      [(WEBHOOK_SIGNATURE_HEADER, .str (compute_signature "s" "1000" "[]")),
       (WEBHOOK_TIMESTAMP_HEADER, .str "1000")]
      Option.none Option.none 1000
      (signed_verify_ok "s" "[]" "1000"
        [(WEBHOOK_SIGNATURE_HEADER, .str (compute_signature "s" "1000" "[]")),
         (WEBHOOK_TIMESTAMP_HEADER, .str "1000")]
        Option.none Option.none 1000 1000 rfl rfl (by decide) (by decide)),
   invalid_body_unreachable_after_verify.2 "s" (.bytes [255])
      [(WEBHOOK_SIGNATURE_HEADER, .str "v1=aa"), (WEBHOOK_TIMESTAMP_HEADER, .str "1000")]
      Option.none Option.none 1000 rfl⟩


/-- Claim C5 counterexample: a signature header present with the empty string
raises MISSING_SIGNATURE, not INVALID_SIGNATURE_FORMAT as the claim states,
because the source guards with Python truthiness. -/
theorem empty_signature_counterexample :
    verify_internal "whsec_test" (.str "b")
      [(WEBHOOK_SIGNATURE_HEADER, .str ""), (WEBHOOK_TIMESTAMP_HEADER, .str "1000")]
      Option.none Option.none 1000 = .error .MISSING_SIGNATURE ∧
    (Except.error ErrorCode.MISSING_SIGNATURE : Except ErrorCode Unit) ≠
      .error .INVALID_SIGNATURE_FORMAT :=
  ⟨rfl, by simp⟩

/-- Claim C5 amended: when the signature header lookup yields a non-empty
value lacking the v1= marker and the timestamp lookup yields a non-empty
value, strict verification raises INVALID_SIGNATURE_FORMAT even if the value
is the bare hex digest; and MISSING_SIGNATURE is raised exactly when the
signature lookup is absent, None, an empty list, or the empty string, that is
when the looked-up value is falsy. -/
theorem signature_format_error_conditions :
    (∀ (instSecret : String) (body : Body) (headers : Headers)
        (secretOpt : Option String) (tolOpt : Option Int) (now : Int) (s t : String),
      getHeader headers WEBHOOK_SIGNATURE_HEADER = some s → s ≠ "" →
      getHeader headers WEBHOOK_TIMESTAMP_HEADER = some t → t ≠ "" →
      pyStartsWith s SIGNATURE_PREFIX_V1 = false →
      verify_internal instSecret body headers secretOpt tolOpt now =
        .error .INVALID_SIGNATURE_FORMAT) ∧
    (∀ (instSecret : String) (body : Body) (headers : Headers)
        (secretOpt : Option String) (tolOpt : Option Int) (now : Int),
      (verify_internal instSecret body headers secretOpt tolOpt now =
          .error .MISSING_SIGNATURE) ↔
        falsyStr (getHeader headers WEBHOOK_SIGNATURE_HEADER) = true) := by
  constructor
  · intro inst body headers so tol now s t hsig hs hts ht hpre
    unfold verify_internal
    rw [hsig, hts]
    simp [falsyStr, isEmpty_false_of_ne hs, isEmpty_false_of_ne ht, hpre]
  · intro inst body headers so tol now
    by_cases hf : falsyStr (getHeader headers WEBHOOK_SIGNATURE_HEADER) = true
    · simp [verify_internal, hf]
    · apply iff_of_false ?_ hf
      intro h
      have hf2 : falsyStr (getHeader headers WEBHOOK_SIGNATURE_HEADER) = false := by
        rwa [Bool.not_eq_true] at hf
      unfold verify_internal at h
      rcases to_string_shape body with hb | ⟨bs, hb⟩ <;>
        simp only [hb, hf2, Bool.false_eq_true, if_false] at h <;>
        repeat' split at h
      all_goals simp at h

theorem signature_format_error_conditions_witness :
    verify_internal "whsec_test" (.str "b")
      [(WEBHOOK_SIGNATURE_HEADER, .str "deadbeef"), (WEBHOOK_TIMESTAMP_HEADER, .str "1000")]
      Option.none Option.none 1000 = .error .INVALID_SIGNATURE_FORMAT ∧
    ((verify_internal "whsec_test" (.str "b")
        [(WEBHOOK_TIMESTAMP_HEADER, .str "1000")]
        Option.none Option.none 1000 = .error .MISSING_SIGNATURE) ↔
      falsyStr (getHeader [(WEBHOOK_TIMESTAMP_HEADER, .str "1000")]
        WEBHOOK_SIGNATURE_HEADER) = true) :=
  ⟨signature_format_error_conditions.1 "whsec_test" (.str "b")
      [(WEBHOOK_SIGNATURE_HEADER, .str "deadbeef"), (WEBHOOK_TIMESTAMP_HEADER, .str "1000")]
      Option.none Option.none 1000 "deadbeef" "1000" rfl (by decide) rfl (by decide) (by decide),
   signature_format_error_conditions.2 "whsec_test" (.str "b")
      [(WEBHOOK_TIMESTAMP_HEADER, .str "1000")] Option.none Option.none 1000⟩

/-- Claim C9: a header key present but mapped to None or to an empty list is
looked up as absent, and strict verification then raises the corresponding
missing-header error; a present non-string scalar such as an integer is
converted with str() before use. -/
theorem absent_header_values :
    (∀ (name : String) (rest : Headers) (v : HeaderValue),
      v = HeaderValue.none ∨ v = .strList [] →
      getHeader ((name, v) :: rest) name = Option.none) ∧
    (∀ (instSecret : String) (body : Body) (headers : Headers)
        (secretOpt : Option String) (tolOpt : Option Int) (now : Int),
      getHeader headers WEBHOOK_SIGNATURE_HEADER = Option.none →
      verify_internal instSecret body headers secretOpt tolOpt now =
        .error .MISSING_SIGNATURE) ∧
    (∀ (instSecret : String) (body : Body) (headers : Headers)
        (secretOpt : Option String) (tolOpt : Option Int) (now : Int),
      falsyStr (getHeader headers WEBHOOK_SIGNATURE_HEADER) = false →
      getHeader headers WEBHOOK_TIMESTAMP_HEADER = Option.none →
      verify_internal instSecret body headers secretOpt tolOpt now =
        .error .MISSING_TIMESTAMP) ∧
    (∀ (name : String) (rest : Headers) (n : Int),
      getHeader ((name, .intVal n) :: rest) name = some (toString n)) := by
  refine ⟨?_, ?_, ?_, ?_⟩
  · intro name rest v hv
    have hfind : ((name, v) :: rest).find? (fun p => p.1 == name) = some (name, v) :=
      List.find?_cons_of_pos _ (by simp)
    unfold getHeader
    rw [hfind]
    rcases hv with rfl | rfl <;> rfl
  · intro inst body headers so tol now hsig
    unfold verify_internal
    rw [hsig]
    simp [falsyStr]
  · intro inst body headers so tol now hsig hts
    unfold verify_internal
    rw [hts]
    simp only [hsig, Bool.false_eq_true, if_false]
    simp [falsyStr]
  · intro name rest n
    have hfind : ((name, HeaderValue.intVal n) :: rest).find? (fun p => p.1 == name) =
        some (name, .intVal n) :=
      List.find?_cons_of_pos _ (by simp)
    unfold getHeader
    rw [hfind]
    rfl

theorem absent_header_values_witness :
    getHeader [(WEBHOOK_SIGNATURE_HEADER, HeaderValue.none)] WEBHOOK_SIGNATURE_HEADER =
      Option.none ∧
    verify_internal "s" (.str "b")
      [(WEBHOOK_SIGNATURE_HEADER, HeaderValue.strList [])]
      Option.none Option.none 0 = .error .MISSING_SIGNATURE ∧
    verify_internal "s" (.str "b")
      [(WEBHOOK_SIGNATURE_HEADER, .str "v1=aa"), (WEBHOOK_TIMESTAMP_HEADER, HeaderValue.none)]
      Option.none Option.none 0 = .error .MISSING_TIMESTAMP ∧
    getHeader [(WEBHOOK_TIMESTAMP_HEADER, .intVal 123)] WEBHOOK_TIMESTAMP_HEADER =
      some "123" :=
  ⟨absent_header_values.1 WEBHOOK_SIGNATURE_HEADER [] HeaderValue.none (Or.inl rfl),
   absent_header_values.2.1 "s" (.str "b")
     [(WEBHOOK_SIGNATURE_HEADER, HeaderValue.strList [])] Option.none Option.none 0 rfl,
   absent_header_values.2.2.1 "s" (.str "b")
     [(WEBHOOK_SIGNATURE_HEADER, .str "v1=aa"), (WEBHOOK_TIMESTAMP_HEADER, HeaderValue.none)]
     Option.none Option.none 0 (by decide) rfl,
   absent_header_values.2.2.2 WEBHOOK_TIMESTAMP_HEADER [] 123⟩


/-- Claim C10: timestamp header strings that are not plain decimal digit
strings, such as underscore-grouped digits, surrounding whitespace, or a
leading plus sign, are accepted by the int() parse, the parsed value drives
the tolerance check, and the raw unnormalized header string is what enters
the signed message. -/
theorem nondecimal_timestamp_accepted :
    pyParseInt "1_000" = some 1000 ∧
    pyParseInt " 1000 " = some 1000 ∧
    pyParseInt "+1000" = some 1000 ∧
    (∀ (instSecret secret body : String) (tolOpt : Option Int) (now : Int),
      ¬(0 ≤ tolOpt.getD DEFAULT_TOLERANCE_MS ∧
        tolOpt.getD DEFAULT_TOLERANCE_MS < ((now - 1000).natAbs : Int)) →
      verify_internal instSecret (.str body)
        [(WEBHOOK_SIGNATURE_HEADER, .str (compute_signature secret "1_000" body)),
         (WEBHOOK_TIMESTAMP_HEADER, .str "1_000")]
        (some secret) tolOpt now = .ok ()) ∧
    (∀ (instSecret secret body : String) (tolOpt : Option Int) (now : Int),
      0 ≤ tolOpt.getD DEFAULT_TOLERANCE_MS →
      tolOpt.getD DEFAULT_TOLERANCE_MS < ((now - 1000).natAbs : Int) →
      verify_internal instSecret (.str body)
        [(WEBHOOK_SIGNATURE_HEADER, .str (compute_signature secret "1_000" body)),
         (WEBHOOK_TIMESTAMP_HEADER, .str "1_000")]
        (some secret) tolOpt now = .error .TIMESTAMP_OUT_OF_RANGE) := by
  refine ⟨by decide, by decide, by decide, ?_, ?_⟩
  · intro instSecret secret body tolOpt now htol
    exact signed_verify_ok instSecret body "1_000"
      [(WEBHOOK_SIGNATURE_HEADER, .str (compute_signature secret "1_000" body)),
       (WEBHOOK_TIMESTAMP_HEADER, .str "1_000")]
      (some secret) tolOpt now 1000 rfl rfl (by decide) htol
  · intro instSecret secret body tolOpt now h1 h2
    unfold verify_internal
    rw [show getHeader
        [(WEBHOOK_SIGNATURE_HEADER, .str (compute_signature secret "1_000" body)),
         (WEBHOOK_TIMESTAMP_HEADER, .str "1_000")] WEBHOOK_SIGNATURE_HEADER =
      some (compute_signature secret "1_000" body) from rfl]
    rw [show getHeader
        [(WEBHOOK_SIGNATURE_HEADER, .str (compute_signature secret "1_000" body)),
         (WEBHOOK_TIMESTAMP_HEADER, .str "1_000")] WEBHOOK_TIMESTAMP_HEADER =
      some "1_000" from rfl]
    simp only [falsyStr, compute_signature_isEmpty, Bool.false_eq_true, if_false,
      show String.isEmpty "1_000" = false from rfl, Option.getD_some,
      compute_signature_startsWith, not_true, if_false,
      show pyParseInt "1_000" = some 1000 from by decide]
    rw [if_pos ⟨h1, h2⟩]

theorem nondecimal_timestamp_accepted_witness :
    verify_internal "inst" (.str "[]")
      [(WEBHOOK_SIGNATURE_HEADER, .str (compute_signature "whsec_test" "1_000" "[]")),
       (WEBHOOK_TIMESTAMP_HEADER, .str "1_000")]
      (some "whsec_test") Option.none 1000 = .ok () ∧
    verify_internal "inst" (.str "[]")
      [(WEBHOOK_SIGNATURE_HEADER, .str (compute_signature "whsec_test" "1_000" "[]")),
       (WEBHOOK_TIMESTAMP_HEADER, .str "1_000")]
      (some "whsec_test") Option.none 1000000000 = .error .TIMESTAMP_OUT_OF_RANGE :=
  ⟨(nondecimal_timestamp_accepted.2.2.2.1) "inst" "whsec_test" "[]" Option.none 1000
     (by decide),
   (nondecimal_timestamp_accepted.2.2.2.2) "inst" "whsec_test" "[]" Option.none 1000000000
     (by decide) (by decide)⟩

/-- Claim C4 counterexample: a verified body whose text is valid JSON but not
an object, here the bare number 42, makes construct_event return the parsed
value rather than raise INVALID_JSON, contrary to the claim. -/
theorem construct_event_non_object_counterexample :
    construct_event "whsec_test" (.str "42")
      [(WEBHOOK_SIGNATURE_HEADER, .str (compute_signature "whsec_test" "1000" "42")),
       (WEBHOOK_TIMESTAMP_HEADER, .str "1000")]
      Option.none Option.none 1000 = .ok (.num "42") ∧
    (Except.ok (JValue.num "42") : Except ErrorCode JValue) ≠ .error .INVALID_JSON := by
  constructor
  · unfold construct_event
    rw [signed_verify_ok "whsec_test" "42" "1000"
      [(WEBHOOK_SIGNATURE_HEADER, .str (compute_signature "whsec_test" "1000" "42")),
       (WEBHOOK_TIMESTAMP_HEADER, .str "1000")]
      Option.none Option.none 1000 1000 rfl rfl (by decide) (by decide)]
    rfl
  · simp

/-- Claim C4 amended: after successful verification and decoding,
construct_event returns whatever JSON value the parse produces, object or
not, and raises INVALID_JSON exactly when the text fails to parse. -/
theorem construct_event_returns_parsed_value :
    (∀ (instSecret : String) (body : Body) (headers : Headers)
        (secretOpt : Option String) (tolOpt : Option Int) (now : Int)
        (bs : String) (v : JValue),
      verify_internal instSecret body headers secretOpt tolOpt now = .ok () →
      to_string body = .ok bs → pyJsonLoads bs = some v →
      construct_event instSecret body headers secretOpt tolOpt now = .ok v) ∧
    (∀ (instSecret : String) (body : Body) (headers : Headers)
        (secretOpt : Option String) (tolOpt : Option Int) (now : Int) (bs : String),
      verify_internal instSecret body headers secretOpt tolOpt now = .ok () →
      to_string body = .ok bs → pyJsonLoads bs = Option.none →
      construct_event instSecret body headers secretOpt tolOpt now =
        .error .INVALID_JSON) := by
  constructor
  · intro inst body headers so tol now bs v hv hb hj
    unfold construct_event
    simp only [hv, hb, hj]
  · intro inst body headers so tol now bs hv hb hj
    unfold construct_event
    simp only [hv, hb, hj]

theorem construct_event_returns_parsed_value_witness :
    construct_event "whsec_test" (.str "[1]")
      [(WEBHOOK_SIGNATURE_HEADER, .str (compute_signature "whsec_test" "1000" "[1]")),
       (WEBHOOK_TIMESTAMP_HEADER, .str "1000")]
      Option.none Option.none 1000 = .ok (.arr [.num "1"]) ∧
    construct_event "whsec_test" (.str "nope")
      [(WEBHOOK_SIGNATURE_HEADER, .str (compute_signature "whsec_test" "1000" "nope")),
       (WEBHOOK_TIMESTAMP_HEADER, .str "1000")]
      Option.none Option.none 1000 = .error .INVALID_JSON :=
  ⟨construct_event_returns_parsed_value.1 "whsec_test" (.str "[1]")
     [(WEBHOOK_SIGNATURE_HEADER, .str (compute_signature "whsec_test" "1000" "[1]")),
      (WEBHOOK_TIMESTAMP_HEADER, .str "1000")]
     Option.none Option.none 1000 "[1]" (.arr [.num "1"])
     (signed_verify_ok "whsec_test" "[1]" "1000"
       [(WEBHOOK_SIGNATURE_HEADER, .str (compute_signature "whsec_test" "1000" "[1]")),
        (WEBHOOK_TIMESTAMP_HEADER, .str "1000")]
       Option.none Option.none 1000 1000 rfl rfl (by decide) (by decide))
     rfl rfl,
   construct_event_returns_parsed_value.2 "whsec_test" (.str "nope")
     [(WEBHOOK_SIGNATURE_HEADER, .str (compute_signature "whsec_test" "1000" "nope")),
      (WEBHOOK_TIMESTAMP_HEADER, .str "1000")]
     Option.none Option.none 1000 "nope"
     (signed_verify_ok "whsec_test" "nope" "1000"
       [(WEBHOOK_SIGNATURE_HEADER, .str (compute_signature "whsec_test" "1000" "nope")),
        (WEBHOOK_TIMESTAMP_HEADER, .str "1000")]
       Option.none Option.none 1000 1000 rfl rfl (by decide) (by decide))
     rfl rfl⟩


theorem getHeader_scan (name : String) (headers : Headers)
    (hp : List.Pairwise (fun p q => pyLower p.1 = pyLower q.1 → p.1 = q.1) headers) :
    getHeader headers name =
      (match headers.find? (fun p => pyLower p.1 == pyLower name) with
       | some p => convertValue p.2
       | Option.none => Option.none) := by
  induction headers with
  | nil => rfl
  | cons kv t ih =>
    obtain ⟨k, v⟩ := kv
    rw [List.pairwise_cons] at hp
    obtain ⟨hhead, htail⟩ := hp
    by_cases hk : (k == name) = true
    · have hkeq : k = name := eq_of_beq hk
      have e1 : ((k, v) :: t).find? (fun p => p.1 == name) = some (k, v) :=
        List.find?_cons_of_pos _ (by simpa using hk)
      have e2 : ((k, v) :: t).find? (fun p => pyLower p.1 == pyLower name) =
          some (k, v) := List.find?_cons_of_pos _ (by simp [hkeq])
      unfold getHeader
      rw [e1, e2]
    · by_cases hkl : (pyLower (k, v).1 == pyLower name) = true
      · have hft : t.find? (fun p => p.1 == name) = Option.none := by
          cases hft : t.find? (fun p => p.1 == name) with
          | none => rfl
          | some p =>
            exfalso
            have hmem := List.mem_of_find?_eq_some hft
            have hpeq : p.1 = name := eq_of_beq (by simpa using List.find?_some hft)
            have hlow : pyLower k = pyLower p.1 := by
              rw [hpeq]
              exact eq_of_beq hkl
            have hkp : k = p.1 := hhead p hmem hlow
            rw [hpeq] at hkp
            exact hk (by rw [hkp]; simp)
        have e1 : ((k, v) :: t).find? (fun p => p.1 == name) = Option.none := by
          rw [List.find?_cons_of_neg _ (by simpa using hk)]
          exact hft
        have e2 : ((k, v) :: t).find? (fun p => pyLower p.1 == pyLower name) =
            some (k, v) := List.find?_cons_of_pos _ (by simpa using hkl)
        unfold getHeader
        rw [e1, e2]
      · have e1 : ((k, v) :: t).find? (fun p => p.1 == name) =
            t.find? (fun p => p.1 == name) := List.find?_cons_of_neg _ (by simpa using hk)
        have e2 : ((k, v) :: t).find? (fun p => pyLower p.1 == pyLower name) =
            t.find? (fun p => pyLower p.1 == pyLower name) :=
          List.find?_cons_of_neg _ (by simpa using hkl)
        unfold getHeader
        rw [e1, e2]
        have hres := ih htail
        unfold getHeader at hres
        exact hres

/-- Claim C7 counterexample: over a mapping holding two distinct keys equal
up to ASCII case, lookups under the two case variants of the name return
different results, refuting the unconditional equal-result reading. -/
theorem header_case_lookup_counterexample :
    pyLower "x-usesend-signature" = pyLower "X-UseSend-Signature" ∧
    getHeader [("x-usesend-signature", .str "A"), ("X-UseSend-Signature", .str "B")]
      "x-usesend-signature" = some "A" ∧
    getHeader [("x-usesend-signature", .str "A"), ("X-UseSend-Signature", .str "B")]
      "X-UseSend-Signature" = some "B" ∧
    (some "A" : Option String) ≠ some "B" :=
  ⟨by decide, rfl, rfl, by simp⟩

/-- Claim C7 amended: header lookup ignores ASCII case, and on any mapping
with no two distinct keys equal up to case, lookups under names equal up to
case agree; a matching list value yields its first element or absent when
empty; and a name with no case-insensitive match yields absent, not an
error. -/
theorem header_lookup_properties :
    (∀ (headers : Headers) (n1 n2 : String),
      List.Pairwise (fun p q => pyLower p.1 = pyLower q.1 → p.1 = q.1) headers →
      pyLower n1 = pyLower n2 →
      getHeader headers n1 = getHeader headers n2) ∧
    (∀ (name : String) (rest : Headers) (l : List String),
      getHeader ((name, .strList l) :: rest) name = l.head?) ∧
    (∀ (headers : Headers) (name : String),
      (∀ p ∈ headers, pyLower p.1 ≠ pyLower name) →
      getHeader headers name = Option.none) := by
  refine ⟨?_, ?_, ?_⟩
  · intro headers n1 n2 hp hlow
    rw [getHeader_scan n1 headers hp, getHeader_scan n2 headers hp, hlow]
  · intro name rest l
    have hfind : ((name, HeaderValue.strList l) :: rest).find? (fun p => p.1 == name) =
        some (name, .strList l) := List.find?_cons_of_pos _ (by simp)
    unfold getHeader
    rw [hfind]
    cases l <;> rfl
  · intro headers name hno
    have h1 : headers.find? (fun p => p.1 == name) = Option.none := by
      rw [List.find?_eq_none]
      intro p hmem hbeq
      exact hno p hmem (by rw [eq_of_beq hbeq])
    have h2 : headers.find? (fun p => pyLower p.1 == pyLower name) = Option.none := by
      rw [List.find?_eq_none]
      intro p hmem hbeq
      exact hno p hmem (eq_of_beq hbeq)
    unfold getHeader
    rw [h1, h2]

theorem header_lookup_properties_witness :
    getHeader [("A", .str "x")] "a" = getHeader [("A", .str "x")] "A" ∧
    getHeader [("K", .str "x")] "nope" = Option.none :=
  ⟨header_lookup_properties.1 [("A", .str "x")] "a" "A" (by simp) (by decide),
   header_lookup_properties.2.2 [("K", .str "x")] "nope" (by decide)⟩

end UseSend
